import Mathlib

/-!
Shallow embedding of `assets/js/script.js` (triangle-mesh canvas background
and skill-bar scroll reveal animator) and proofs of the specification claims.

JS numbers are modelled as rationals (`ℚ`); the claims at stake are algebraic
and do not concern floating-point rounding.  Square roots (`Math.hypot`)
are avoided by comparing squared distances: for nonnegative `d` and `L`,
`hypot dx dy ≤ L ↔ dx² + dy² ≤ L²`, so the distance-gate comparisons of the
source are embedded squared.
-/

namespace Portfolio

/- ====== Tunable parameters (script.js lines 10-28) ====== -/

def MOBILE_BREAKPOINT : ℚ := 768

def PARTICLES_MOBILE : Nat := 48

def PARTICLES_DESKTOP : Nat := 100

def BASE_SPEED : ℚ := 1 / 50  -- 0.02 px per ms

def WRAP_MARGIN : ℚ := 24

def NEIGHBOR_COUNT : Nat := 3

def LINK_MAX_DIST : ℚ := 120

def DPR_CAP : ℚ := 7 / 4  -- 1.75

/-- A particle of the mesh (script.js lines 105-111).  The `neighbors` field
is the per-particle cache written by `computeNeighbors` (line 147): a list of
`(index, squared distance)` pairs; it is absent (here: `[]`) until the first
neighbor computation, matching the `!pi.neighbors` guard in `drawScene`. -/
structure Particle where
  x : ℚ
  y : ℚ
  vx : ℚ
  vy : ℚ
  depth : ℚ
  neighbors : List (Nat × ℚ)
  deriving DecidableEq, Repr

instance : Inhabited Particle := ⟨⟨0, 0, 0, 0, 0, []⟩⟩

/-- Utility: linear interpolation (script.js line 41). -/
def lerp (a b t : ℚ) : ℚ := a + (b - a) * t

/-- Choose particle count by viewport (script.js lines 44-48). -/
def computeParticleCount (innerWidth : ℚ) : Nat :=
  if innerWidth ≤ MOBILE_BREAKPOINT then PARTICLES_MOBILE else PARTICLES_DESKTOP

/- ====== updateParticles (script.js lines 116-129) ====== -/

/-- One particle's position step of `updateParticles(dt)` (script.js
lines 121-127): advance by velocity × dt, then wrap each coordinate that
crossed an edge to the opposite edge.  `width`/`height` are the module-level
scene size the source reads. -/
def updateParticle (width height dt : ℚ) (p : Particle) : Particle :=
  let x1 := p.x + p.vx * dt
  let y1 := p.y + p.vy * dt
  let x2 := if x1 < -WRAP_MARGIN then width + WRAP_MARGIN
            else if x1 > width + WRAP_MARGIN then -WRAP_MARGIN else x1
  let y2 := if y1 < -WRAP_MARGIN then height + WRAP_MARGIN
            else if y1 > height + WRAP_MARGIN then -WRAP_MARGIN else y1
  { p with x := x2, y := y2 }

/-- `updateParticles(dt)` (script.js lines 116-129): the loop body touches
each particle independently, so the in-place `for..of` is a map. -/
def updateParticles (width height dt : ℚ) (pts : List Particle) : List Particle :=
  pts.map (updateParticle width height dt)

/-- C1: after any update step the particle's coordinates lie in
`[-WRAP_MARGIN, size + WRAP_MARGIN]` on both axes, for any `dt`; a coordinate
that crosses an edge is set to the opposite edge. -/
theorem updateParticle_wraps (width height dt : ℚ) (p : Particle)
    (hw : 0 ≤ width) (hh : 0 ≤ height) :
    -WRAP_MARGIN ≤ (updateParticle width height dt p).x ∧
    (updateParticle width height dt p).x ≤ width + WRAP_MARGIN ∧
    -WRAP_MARGIN ≤ (updateParticle width height dt p).y ∧
    (updateParticle width height dt p).y ≤ height + WRAP_MARGIN ∧
    (p.x + p.vx * dt < -WRAP_MARGIN → (updateParticle width height dt p).x = width + WRAP_MARGIN) ∧
    (p.x + p.vx * dt > width + WRAP_MARGIN → (updateParticle width height dt p).x = -WRAP_MARGIN) ∧
    (p.y + p.vy * dt < -WRAP_MARGIN → (updateParticle width height dt p).y = height + WRAP_MARGIN) ∧
    (p.y + p.vy * dt > height + WRAP_MARGIN → (updateParticle width height dt p).y = -WRAP_MARGIN) := by
  unfold updateParticle WRAP_MARGIN
  dsimp only
  refine ⟨?_, ?_, ?_, ?_, ?_, ?_, ?_, ?_⟩ <;> try intro h
  all_goals split_ifs <;> first | rfl | ((try push_neg at *); linarith)

/-- Witness for C1 at a concrete input: width 200, height 100, dt 3000, a
particle moving left fast enough to cross the left edge. -/
theorem updateParticle_wraps_witness :
    (0:ℚ) ≤ 200 ∧ (0:ℚ) ≤ 100 ∧
    -WRAP_MARGIN ≤ (updateParticle 200 100 3000 ⟨10, 20, -1, 0, 0, []⟩).x ∧
    (updateParticle 200 100 3000 ⟨10, 20, -1, 0, 0, []⟩).x = 200 + WRAP_MARGIN := by
  have h := updateParticle_wraps 200 100 3000 ⟨10, 20, -1, 0, 0, []⟩
    (by norm_num) (by norm_num)
  refine ⟨by norm_num, by norm_num, h.1, ?_⟩
  exact h.2.2.2.2.1 (by norm_num [WRAP_MARGIN])

/-- C9: the position-update step changes only `x` and `y`; `vx`, `vy`,
`depth` and the cached neighbor list are untouched, and the array keeps its
length and order. -/
theorem updateParticles_only_positions (width height dt : ℚ) (pts : List Particle)
    (i : Nat) (hi : i < pts.length) :
    (updateParticles width height dt pts).length = pts.length ∧
    ((updateParticles width height dt pts).getD i default).vx = (pts.getD i default).vx ∧
    ((updateParticles width height dt pts).getD i default).vy = (pts.getD i default).vy ∧
    ((updateParticles width height dt pts).getD i default).depth = (pts.getD i default).depth ∧
    ((updateParticles width height dt pts).getD i default).neighbors
      = (pts.getD i default).neighbors ∧
    (updateParticles width height dt pts).getD i default
      = updateParticle width height dt (pts.getD i default) := by
  have hlen : (updateParticles width height dt pts).length = pts.length :=
    List.length_map _ _
  have hget : (updateParticles width height dt pts).getD i default
      = updateParticle width height dt (pts.getD i default) := by
    rw [List.getD_eq_getElem _ _ (by rw [hlen]; exact hi),
      List.getD_eq_getElem _ _ hi]
    simp [updateParticles]
  refine ⟨hlen, ?_, ?_, ?_, ?_, hget⟩ <;> rw [hget] <;> rfl

/-- Witness for C9 at a concrete input. -/
theorem updateParticles_only_positions_witness :
    0 < [(⟨1, 2, 3, 4, 5, [(1, 9)]⟩ : Particle)].length ∧
    ((updateParticles 200 100 10 [⟨1, 2, 3, 4, 5, [(1, 9)]⟩]).getD 0 default).vx
      = ((3 : ℚ)) := by
  refine ⟨by decide, ?_⟩
  have h := updateParticles_only_positions 200 100 10 [⟨1, 2, 3, 4, 5, [(1, 9)]⟩] 0
    (by decide)
  rw [h.2.1]
  rfl

/- ====== computeNeighbors (script.js lines 132-149) ====== -/

/-- Squared distance `dx*dx + dy*dy` of script.js lines 140-142. -/
def d2Between (p q : Particle) : ℚ :=
  (q.x - p.x) * (q.x - p.x) + (q.y - p.y) * (q.y - p.y)

/-- The sort comparator of line 145 (`(a, b) => a.d2 - b.d2`): order entries
by cached squared distance. -/
def byD2 (a b : Nat × ℚ) : Prop := a.2 ≤ b.2

instance : DecidableRel byD2 := fun a b => inferInstanceAs (Decidable (a.2 ≤ b.2))

instance : IsTotal (Nat × ℚ) byD2 := ⟨fun a b => le_total a.2 b.2⟩

instance : IsTrans (Nat × ℚ) byD2 := ⟨fun _ _ _ => le_trans⟩

/-- The candidate array `arr` of lines 136-144: one `(j, d2)` entry per index
`j ≠ i`. -/
def neighborCandidates (pts : List Particle) (i : Nat) : List (Nat × ℚ) :=
  (List.range pts.length).filterMap fun j =>
    if j = i then none
    else some (j, d2Between (pts.getD i default) (pts.getD j default))

/-- Lines 145-147: sort candidates by `d2` and keep the first
`NEIGHBOR_COUNT`.  The engine sort is embedded as a comparison sort by the
same key. -/
def neighborsFor (pts : List Particle) (i : Nat) : List (Nat × ℚ) :=
  (List.insertionSort byD2 (neighborCandidates pts i)).take NEIGHBOR_COUNT

/-- `computeNeighbors()` (lines 132-149).  The loop only writes the
`neighbors` field and only reads positions, which it never writes, so the
sequential in-place update equals this parallel rebuild. -/
def computeNeighbors (pts : List Particle) : List Particle :=
  (List.range pts.length).map fun i =>
    { pts.getD i default with neighbors := neighborsFor pts i }

lemma neighborCandidates_pairwise_ne (pts : List Particle) (i : Nat) :
    (neighborCandidates pts i).Pairwise fun a b => a.1 ≠ b.1 := by
  unfold neighborCandidates
  rw [List.pairwise_filterMap]
  refine (List.pairwise_lt_range pts.length).imp ?_
  intro a b hab x hx y hy
  split at hx
  · exact absurd hx (by simp)
  split at hy
  · exact absurd hy (by simp)
  · simp only [Option.mem_def, Option.some.injEq] at hx hy
    subst hx; subst hy
    exact Nat.ne_of_lt hab

lemma mem_neighborCandidates {pts : List Particle} {i : Nat} {e : Nat × ℚ}
    (he : e ∈ neighborCandidates pts i) :
    e.1 ≠ i ∧ e.1 < pts.length ∧
    e.2 = d2Between (pts.getD i default) (pts.getD e.1 default) := by
  unfold neighborCandidates at he
  rw [List.mem_filterMap] at he
  obtain ⟨j, hj, hje⟩ := he
  rw [List.mem_range] at hj
  split at hje
  · exact absurd hje (by simp)
  · obtain rfl := (Option.some.injEq _ _).mp hje
    exact ⟨by assumption, hj, rfl⟩

lemma neighborsFor_subset_candidates {pts : List Particle} {i : Nat} {e : Nat × ℚ}
    (he : e ∈ neighborsFor pts i) : e ∈ neighborCandidates pts i := by
  unfold neighborsFor at he
  exact (List.mem_insertionSort byD2).mp (List.take_subset _ _ he)

lemma length_filterMap_ite {β : Type} (g : Nat → β) (i : Nat) (l : List Nat) :
    (l.filterMap fun j => if j = i then none else some (g j)).length
      = l.length - l.count i := by
  induction l with
  | nil => rfl
  | cons a l ih =>
    by_cases ha : a = i
    · subst ha
      have hcl := List.count_le_length a l
      simp [List.filterMap_cons, ih]
    · have hcl := List.count_le_length i l
      simp [List.filterMap_cons, ha, ih,
        List.count_cons_of_ne (fun h => ha h.symm)]
      omega

lemma neighborCandidates_length (pts : List Particle) (i : Nat)
    (hi : i < pts.length) :
    (neighborCandidates pts i).length = pts.length - 1 := by
  unfold neighborCandidates
  rw [length_filterMap_ite,
    List.count_eq_one_of_mem (List.nodup_range _) (List.mem_range.mpr hi),
    List.length_range]

/-- C2: neighbor lists exclude self, have length ≤ `NEIGHBOR_COUNT`, carry
pairwise-distinct in-range indices with correct cached squared distances, and
are optimal: any other particle not selected is at least as far as every
selected one.  `computeNeighbors` stores exactly this list on particle `i`. -/
theorem computeNeighbors_correct (pts : List Particle) (i : Nat)
    (e : Nat × ℚ) (he : e ∈ neighborsFor pts i)
    (j : Nat) (hj : j < pts.length) (hji : j ≠ i)
    (hjout : j ∉ (neighborsFor pts i).map Prod.fst)
    (hi : i < pts.length) :
    (neighborsFor pts i).length ≤ NEIGHBOR_COUNT ∧
    (neighborsFor pts i).length = min NEIGHBOR_COUNT (pts.length - 1) ∧
    ((neighborsFor pts i).map Prod.fst).Nodup ∧
    e.1 ≠ i ∧ e.1 < pts.length ∧
    e.2 = d2Between (pts.getD i default) (pts.getD e.1 default) ∧
    e.2 ≤ d2Between (pts.getD i default) (pts.getD j default) ∧
    ((computeNeighbors pts).getD i default).neighbors = neighborsFor pts i := by
  have hsym : ∀ {a b : Nat × ℚ}, a.1 ≠ b.1 → b.1 ≠ a.1 := fun h => h.symm
  have hmem := mem_neighborCandidates (neighborsFor_subset_candidates he)
  refine ⟨?_, ?_, ?_, hmem.1, hmem.2.1, hmem.2.2, ?_, ?_⟩
  · unfold neighborsFor
    rw [List.length_take]
    exact min_le_left _ _
  · unfold neighborsFor
    rw [List.length_take, (List.perm_insertionSort byD2 _).length_eq,
      neighborCandidates_length pts i hi]
  · rw [List.Nodup, List.pairwise_map]
    refine List.Pairwise.sublist (List.take_sublist _ _) ?_
    exact ((List.perm_insertionSort byD2 _).pairwise_iff hsym).mpr
      (neighborCandidates_pairwise_ne pts i)
  · -- optimality: the unselected candidate for j sits in the dropped tail
    set cj : Nat × ℚ := (j, d2Between (pts.getD i default) (pts.getD j default))
    have hcj : cj ∈ neighborCandidates pts i := by
      unfold neighborCandidates
      rw [List.mem_filterMap]
      exact ⟨j, List.mem_range.mpr hj, by rw [if_neg hji]⟩
    have hcs : cj ∈ List.insertionSort byD2 (neighborCandidates pts i) :=
      (List.mem_insertionSort byD2).mpr hcj
    have hsplit := List.take_append_drop NEIGHBOR_COUNT
      (List.insertionSort byD2 (neighborCandidates pts i))
    have hpw : (List.insertionSort byD2 (neighborCandidates pts i)).Pairwise byD2 :=
      List.sorted_insertionSort byD2 _
    rw [← hsplit, List.pairwise_append] at hpw
    rw [← hsplit, List.mem_append] at hcs
    rcases hcs with hin | hout
    · exact absurd (List.mem_map_of_mem Prod.fst hin) hjout
    · exact hpw.2.2 e he cj hout
  · unfold computeNeighbors
    rw [List.getD_eq_getElem _ _ (by simpa using hi)]
    simp

/-- Five collinear demo particles used by concrete witnesses. -/
def demoPts : List Particle :=
  [⟨0, 0, 0, 0, 0, []⟩, ⟨1, 0, 0, 0, 0, []⟩, ⟨2, 0, 0, 0, 0, []⟩,
   ⟨3, 0, 0, 0, 0, []⟩, ⟨10, 0, 0, 0, 0, []⟩]

/-- Witness for C2: five collinear particles; for particle 0 the three
nearest are indices 1, 2, 3 and index 4 (distance² = 100) is excluded. -/
theorem computeNeighbors_correct_witness :
    (1, (1:ℚ)) ∈ neighborsFor demoPts 0 ∧
    (neighborsFor demoPts 0).length ≤ NEIGHBOR_COUNT ∧
    (1 ≠ (0:Nat)) ∧
    ((1:ℚ) ≤ d2Between (demoPts.getD 0 default) (demoPts.getD 4 default)) := by
  have hnb : neighborsFor demoPts 0 = [(1, 1), (2, 4), (3, 9)] := by
    norm_num [neighborsFor, neighborCandidates, demoPts, byD2, d2Between,
      List.insertionSort, List.orderedInsert, List.range_succ, NEIGHBOR_COUNT]
  have hmem : (1, (1:ℚ)) ∈ neighborsFor demoPts 0 := by rw [hnb]; simp
  have hout : 4 ∉ (neighborsFor demoPts 0).map Prod.fst := by rw [hnb]; simp
  have h := computeNeighbors_correct demoPts 0 (1, (1:ℚ)) hmem
    4 (by decide) (by decide) hout (by decide)
  exact ⟨hmem, h.1, by decide, h.2.2.2.2.2.2.1⟩

/- ====== drawScene triangle pass (script.js lines 177-224) ====== -/

/-- The inline minimum-area literal of line 200 (`if (area < 150) continue`). -/
def MIN_TRIANGLE_AREA : ℚ := 150

/-- The signed doubled area `(p1.x-p0.x)*(p2.y-p0.y) - (p2.x-p0.x)*(p1.y-p0.y)`
of lines 196-198, before `Math.abs`. -/
def crossVal (p0 p1 p2 : Particle) : ℚ :=
  (p1.x - p0.x) * (p2.y - p0.y) - (p2.x - p0.x) * (p1.y - p0.y)

/-- `area` of lines 196-198: absolute doubled triangle area. -/
def areaVal (p0 p1 p2 : Particle) : ℚ := |crossVal p0 p1 p2|

/-- The gate of lines 189-200: the triangle is drawn iff no pairwise distance
exceeds `LINK_MAX_DIST` and the area is at least the minimum.  `Math.hypot`
distances are compared squared (`hypot ≤ L ↔ hypot² ≤ L²` for `L ≥ 0`). -/
def triangleVisible (p0 p1 p2 : Particle) : Prop :=
  d2Between p0 p1 ≤ LINK_MAX_DIST * LINK_MAX_DIST ∧
  d2Between p0 p2 ≤ LINK_MAX_DIST * LINK_MAX_DIST ∧
  d2Between p1 p2 ≤ LINK_MAX_DIST * LINK_MAX_DIST ∧
  MIN_TRIANGLE_AREA ≤ areaVal p0 p1 p2

instance (p0 p1 p2 : Particle) : Decidable (triangleVisible p0 p1 p2) := by
  unfold triangleVisible; infer_instance

/-- The triangle pass of `drawScene` (lines 177-224): for each particle with
at least two cached neighbors, up to `min 2 (neighbors.length - 1)` candidate
triangles with the nearest and second/third-nearest neighbor; a candidate
passing the gate issues one fill and one stroke.  This returns the list of
triangles actually drawn, in draw order. -/
def trianglesDrawn (pts : List Particle) : List (Particle × Particle × Particle) :=
  (List.range pts.length).flatMap fun i =>
    if (pts.getD i default).neighbors.length < 2 then []
    else
      (List.range (min 2 ((pts.getD i default).neighbors.length - 1))).filterMap fun t =>
        if triangleVisible (pts.getD i default)
            (pts.getD ((pts.getD i default).neighbors.getD 0 (0, 0)).1 default)
            (pts.getD ((pts.getD i default).neighbors.getD (t + 1) (0, 0)).1 default)
        then some (pts.getD i default,
            pts.getD ((pts.getD i default).neighbors.getD 0 (0, 0)).1 default,
            pts.getD ((pts.getD i default).neighbors.getD (t + 1) (0, 0)).1 default)
        else none

/-- Canvas draw calls issued by the triangle pass: each drawn triangle is one
`fill()` plus one `stroke()` (lines 216 and 222). -/
def triangleDrawCalls (pts : List Particle) : Nat := 2 * (trianglesDrawn pts).length

lemma computeNeighbors_getD (pts : List Particle) (i : Nat) (hi : i < pts.length) :
    (computeNeighbors pts).getD i default
      = { pts.getD i default with neighbors := neighborsFor pts i } := by
  unfold computeNeighbors
  rw [List.getD_eq_getElem _ _ (by simpa using hi)]
  simp

lemma trianglesDrawn_mem {pts : List Particle} {tri : Particle × Particle × Particle}
    (htri : tri ∈ trianglesDrawn pts) :
    triangleVisible tri.1 tri.2.1 tri.2.2 ∧
    ∃ i, i < pts.length ∧ tri.1 = pts.getD i default ∧
      (∃ e0, e0 ∈ (pts.getD i default).neighbors ∧ tri.2.1 = pts.getD e0.1 default) ∧
      (∃ e1, e1 ∈ (pts.getD i default).neighbors ∧ tri.2.2 = pts.getD e1.1 default) := by
  unfold trianglesDrawn at htri
  rw [List.mem_flatMap] at htri
  obtain ⟨i, hir, hmem⟩ := htri
  rw [List.mem_range] at hir
  split at hmem
  · exact absurd hmem (List.not_mem_nil _)
  next hlen =>
    rw [List.mem_filterMap] at hmem
    obtain ⟨t, htr, heq⟩ := hmem
    rw [List.mem_range] at htr
    split at heq
    next hvis =>
      obtain rfl := Option.some.inj heq
      refine ⟨hvis, i, hir, rfl, ⟨_, ?_, rfl⟩, ⟨_, ?_, rfl⟩⟩
      · have h0 : 0 < (pts.getD i default).neighbors.length := by omega
        rw [List.getD_eq_getElem _ _ h0]
        exact List.getElem_mem _
      · have h1 : t + 1 < (pts.getD i default).neighbors.length := by omega
        rw [List.getD_eq_getElem _ _ h1]
        exact List.getElem_mem _
    next => exact absurd heq (by simp)

lemma abs_le_abs_of_tri (x y : ℚ) (h : x = y ∨ x = -y ∨ x = 0) : |x| ≤ |y| := by
  rcases h with rfl | rfl | rfl
  · exact le_refl _
  · exact le_of_eq (abs_neg y)
  · rw [abs_zero]
    exact abs_nonneg y

/-- The absolute doubled area is invariant (up to degeneracy) when each vertex
is positioned at one of three fixed points. -/
lemma areaVal_le_of_positions (p q r a b c : Particle)
    (ha : a.x = p.x ∧ a.y = p.y ∨ a.x = q.x ∧ a.y = q.y ∨ a.x = r.x ∧ a.y = r.y)
    (hb : b.x = p.x ∧ b.y = p.y ∨ b.x = q.x ∧ b.y = q.y ∨ b.x = r.x ∧ b.y = r.y)
    (hc : c.x = p.x ∧ c.y = p.y ∨ c.x = q.x ∧ c.y = q.y ∨ c.x = r.x ∧ c.y = r.y) :
    areaVal a b c ≤ areaVal p q r := by
  unfold areaVal
  apply abs_le_abs_of_tri
  unfold crossVal
  obtain ⟨ha1, ha2⟩ | ⟨ha1, ha2⟩ | ⟨ha1, ha2⟩ := ha <;>
    obtain ⟨hb1, hb2⟩ | ⟨hb1, hb2⟩ | ⟨hb1, hb2⟩ := hb <;>
    obtain ⟨hc1, hc2⟩ | ⟨hc1, hc2⟩ | ⟨hc1, hc2⟩ := hc <;>
    rw [ha1, ha2, hb1, hb2, hc1, hc2] <;>
    first
      | (left; ring1)
      | (right; left; ring1)
      | (right; right; ring1)

lemma computeNeighbors3_pos (p0 p1 p2 : Particle) (j : Nat) (hj : j < 3) :
    ((computeNeighbors [p0, p1, p2]).getD j default).x = p0.x ∧
      ((computeNeighbors [p0, p1, p2]).getD j default).y = p0.y ∨
    ((computeNeighbors [p0, p1, p2]).getD j default).x = p1.x ∧
      ((computeNeighbors [p0, p1, p2]).getD j default).y = p1.y ∨
    ((computeNeighbors [p0, p1, p2]).getD j default).x = p2.x ∧
      ((computeNeighbors [p0, p1, p2]).getD j default).y = p2.y := by
  have hj3 : j = 0 ∨ j = 1 ∨ j = 2 := by omega
  rcases hj3 with rfl | rfl | rfl
  · rw [computeNeighbors_getD _ _ (by simp)]
    exact Or.inl ⟨rfl, rfl⟩
  · rw [computeNeighbors_getD _ _ (by simp)]
    exact Or.inr (Or.inl ⟨rfl, rfl⟩)
  · rw [computeNeighbors_getD _ _ (by simp)]
    exact Or.inr (Or.inr ⟨rfl, rfl⟩)

/-- C3: a drawn triangle always passes the distance gate (all pairwise
distances ≤ `LINK_MAX_DIST`, compared squared) and the area gate
(≥ `MIN_TRIANGLE_AREA`); and a 3-point scene whose triangle area is below the
threshold produces zero triangle draw calls. -/
theorem drawScene_triangle_gating (pts : List Particle)
    (tri : Particle × Particle × Particle) (htri : tri ∈ trianglesDrawn pts)
    (p0 p1 p2 : Particle) (harea : areaVal p0 p1 p2 < MIN_TRIANGLE_AREA) :
    d2Between tri.1 tri.2.1 ≤ LINK_MAX_DIST * LINK_MAX_DIST ∧
    d2Between tri.1 tri.2.2 ≤ LINK_MAX_DIST * LINK_MAX_DIST ∧
    d2Between tri.2.1 tri.2.2 ≤ LINK_MAX_DIST * LINK_MAX_DIST ∧
    MIN_TRIANGLE_AREA ≤ areaVal tri.1 tri.2.1 tri.2.2 ∧
    trianglesDrawn (computeNeighbors [p0, p1, p2]) = [] ∧
    triangleDrawCalls (computeNeighbors [p0, p1, p2]) = 0 := by
  have hvis := (trianglesDrawn_mem htri).1
  unfold triangleVisible at hvis
  obtain ⟨h1, h2, h3, h4⟩ := hvis
  have hempty : trianglesDrawn (computeNeighbors [p0, p1, p2]) = [] := by
    rw [List.eq_nil_iff_forall_not_mem]
    intro tri' htri'
    obtain ⟨hvis', i, hi, h0eq, ⟨e0, he0, h1eq⟩, ⟨e1, he1, h2eq⟩⟩ :=
      trianglesDrawn_mem htri'
    have hlen : (computeNeighbors [p0, p1, p2]).length = 3 := by
      simp [computeNeighbors]
    rw [hlen] at hi
    have he0' : e0 ∈ neighborsFor [p0, p1, p2] i := by
      rw [computeNeighbors_getD _ _ (by simpa using hi)] at he0
      exact he0
    have he1' : e1 ∈ neighborsFor [p0, p1, p2] i := by
      rw [computeNeighbors_getD _ _ (by simpa using hi)] at he1
      exact he1
    have he0c := mem_neighborCandidates (neighborsFor_subset_candidates he0')
    have he1c := mem_neighborCandidates (neighborsFor_subset_candidates he1')
    have posa := computeNeighbors3_pos p0 p1 p2 i hi
    have posb := computeNeighbors3_pos p0 p1 p2 e0.1 (by simpa using he0c.2.1)
    have posc := computeNeighbors3_pos p0 p1 p2 e1.1 (by simpa using he1c.2.1)
    rw [← h0eq] at posa
    rw [← h1eq] at posb
    rw [← h2eq] at posc
    have hle := areaVal_le_of_positions p0 p1 p2 tri'.1 tri'.2.1 tri'.2.2 posa posb posc
    unfold triangleVisible at hvis'
    have := hvis'.2.2.2
    linarith
  refine ⟨h1, h2, h3, h4, hempty, ?_⟩
  unfold triangleDrawCalls
  rw [hempty]
  rfl

/-- Witness for C3: a scene with one fat triangle (legs 40, doubled area 1600)
that is drawn, and a thin collinear 3-point scene (area 0) drawing nothing. -/
theorem drawScene_triangle_gating_witness :
    ((⟨0, 0, 0, 0, 0, [(1, 1600), (2, 1600)]⟩, ⟨40, 0, 0, 0, 0, []⟩,
        (⟨0, 40, 0, 0, 0, []⟩ : Particle)) ∈
      trianglesDrawn [⟨0, 0, 0, 0, 0, [(1, 1600), (2, 1600)]⟩,
        ⟨40, 0, 0, 0, 0, []⟩, ⟨0, 40, 0, 0, 0, []⟩]) ∧
    areaVal ⟨0, 0, 0, 0, 0, []⟩ ⟨1, 0, 0, 0, 0, []⟩ ⟨2, 0, 0, 0, 0, []⟩
      < MIN_TRIANGLE_AREA ∧
    trianglesDrawn (computeNeighbors
      [⟨0, 0, 0, 0, 0, []⟩, ⟨1, 0, 0, 0, 0, []⟩, ⟨2, 0, 0, 0, 0, []⟩]) = [] ∧
    triangleDrawCalls (computeNeighbors
      [⟨0, 0, 0, 0, 0, []⟩, ⟨1, 0, 0, 0, 0, []⟩, ⟨2, 0, 0, 0, 0, []⟩]) = 0 := by
  have htri : ((⟨0, 0, 0, 0, 0, [(1, 1600), (2, 1600)]⟩, ⟨40, 0, 0, 0, 0, []⟩,
      (⟨0, 40, 0, 0, 0, []⟩ : Particle)) ∈
      trianglesDrawn [⟨0, 0, 0, 0, 0, [(1, 1600), (2, 1600)]⟩,
        ⟨40, 0, 0, 0, 0, []⟩, ⟨0, 40, 0, 0, 0, []⟩]) := by
    norm_num [trianglesDrawn, triangleVisible, d2Between, areaVal, crossVal,
      LINK_MAX_DIST, MIN_TRIANGLE_AREA, List.range_succ,
      List.getD_cons_zero, List.getD_cons_succ]
  have harea : areaVal ⟨0, 0, 0, 0, 0, []⟩ ⟨1, 0, 0, 0, 0, []⟩ ⟨2, 0, 0, 0, 0, []⟩
      < MIN_TRIANGLE_AREA := by
    norm_num [areaVal, crossVal, MIN_TRIANGLE_AREA]
  have h := drawScene_triangle_gating _ _ htri _ _ _ harea
  exact ⟨htri, harea, h.2.2.2.2.1, h.2.2.2.2.2⟩

/- ====== Scroll reveal animator (script.js lines 316-349) ====== -/

/-- The fixed tween duration of line 329 (`const duration = 700`), in ms. -/
def TWEEN_DURATION : ℚ := 700

/-- `easeInOutQuad` of line 333:
`t < 0.5 ? 2*t*t : -1 + (4 - 2*t)*t`. -/
def easedFn (t : ℚ) : ℚ := if t < 1 / 2 then 2 * t * t else -1 + (4 - 2 * t) * t

/-- The clamped progress fraction of line 332:
`Math.min(1, (ts - start) / duration)`. -/
def tickT (startTs ts : ℚ) : ℚ := min 1 ((ts - startTs) / TWEEN_DURATION)

/-- The value written to `--p` on each tick (line 334): `target * eased`. -/
def tickValue (target startTs ts : ℚ) : ℚ := target * easedFn (tickT startTs ts)

/-- `parseFloat(el.style.getPropertyValue("--p")) || 0` (line 327): a missing
or unparsable property makes `parseFloat` return `NaN` (modelled `none`), and
`|| 0` maps the falsy results (`NaN`, `0`, `-0`) to `0`. -/
def tweenTarget (styleP : Option ℚ) : ℚ :=
  match styleP with
  | none => 0
  | some v => if v = 0 then 0 else v

lemma easedFn_mono {a b : ℚ} (h0 : 0 ≤ a) (hab : a ≤ b) (hb1 : b ≤ 1) :
    easedFn a ≤ easedFn b := by
  unfold easedFn
  split_ifs with ha hb hb
  · nlinarith
  · have h1 : (0:ℚ) ≤ 2 * b - 1 := by linarith
    have h2 : (0:ℚ) ≤ 3 - 2 * b := by linarith
    nlinarith [mul_nonneg h1 h2]
  · linarith
  · have h1 : (0:ℚ) ≤ b - a := by linarith
    have h2 : (0:ℚ) ≤ 2 - a - b := by linarith
    nlinarith [mul_nonneg h1 h2]

/-- C4: the reveal tween writes 0 at the starting timestamp, exactly the
target once the elapsed time reaches the 700 ms duration, and for increasing
tick timestamps the written values are non-decreasing; the easing curve has
`eased 0 = 0`, `eased 1 = 1` and is applied monotonically. -/
theorem revealTween_correct (target s a b : ℚ) (htar : 0 ≤ target)
    (hsa : s ≤ a) (hab : a ≤ b) :
    tickValue target s s = 0 ∧
    easedFn 0 = 0 ∧ easedFn 1 = 1 ∧
    (TWEEN_DURATION ≤ b - s → tickValue target s b = target) ∧
    easedFn (tickT s a) ≤ easedFn (tickT s b) ∧
    tickValue target s a ≤ tickValue target s b := by
  have heased0 : easedFn 0 = 0 := by norm_num [easedFn]
  have heased1 : easedFn 1 = 1 := by norm_num [easedFn]
  have htick0 : tickT s s = 0 := by
    unfold tickT TWEEN_DURATION
    norm_num
  have htickmono : tickT s a ≤ tickT s b := by
    unfold tickT TWEEN_DURATION
    exact min_le_min (le_refl 1)
      ((div_le_div_iff_of_pos_right (by norm_num)).mpr (by linarith))
  have hticka0 : 0 ≤ tickT s a := by
    unfold tickT TWEEN_DURATION
    exact le_min (by norm_num) (div_nonneg (by linarith) (by norm_num))
  have htickb1 : tickT s b ≤ 1 := min_le_left _ _
  have hemono : easedFn (tickT s a) ≤ easedFn (tickT s b) :=
    easedFn_mono hticka0 htickmono htickb1
  refine ⟨?_, heased0, heased1, ?_, hemono, ?_⟩
  · rw [tickValue, htick0, heased0, mul_zero]
  · intro hdur
    have : tickT s b = 1 := by
      unfold TWEEN_DURATION at hdur
      unfold tickT TWEEN_DURATION
      rw [min_eq_left]
      rw [le_div_iff₀ (by norm_num)]
      linarith
    rw [tickValue, this, heased1, mul_one]
  · exact mul_le_mul_of_nonneg_left hemono htar

/-- Witness for C4 at target 80, start 100 ms, ticks at 450 ms and 800 ms. -/
theorem revealTween_correct_witness :
    (0:ℚ) ≤ 80 ∧ (100:ℚ) ≤ 450 ∧ (450:ℚ) ≤ 800 ∧
    (tickValue 80 100 100 = 0 ∧
     easedFn 0 = 0 ∧ easedFn 1 = 1 ∧
     (TWEEN_DURATION ≤ 800 - 100 → tickValue 80 100 800 = 80) ∧
     easedFn (tickT 100 450) ≤ easedFn (tickT 100 800) ∧
     tickValue 80 100 450 ≤ tickValue 80 100 800) :=
  ⟨by norm_num, by norm_num, by norm_num,
    revealTween_correct 80 100 450 800 (by norm_num) (by norm_num) (by norm_num)⟩

/-- C10: when the element's `--p` style property is absent or unparsable, the
tween target defaults to 0 and every tick writes 0: the animation degrades to
a no-op. -/
theorem missing_progress_is_noop (styleP : Option ℚ) (h : styleP = none)
    (s ts : ℚ) :
    tweenTarget styleP = 0 ∧ tickValue (tweenTarget styleP) s ts = 0 := by
  subst h
  exact ⟨rfl, by simp [tickValue, tweenTarget]⟩

/-- Witness for C10 at a concrete tick 350 ms after start 0. -/
theorem missing_progress_is_noop_witness :
    tweenTarget none = 0 ∧ tickValue (tweenTarget none) 0 350 = 0 :=
  missing_progress_is_noop none rfl 0 350

/-- State of the skill-bar IntersectionObserver (lines 321-348): the set of
still-observed elements (elements are keyed by `ℕ`) and a per-element count
of started tweens. -/
structure RevealState where
  observed : Finset ℕ
  started : ℕ → ℕ

/-- One callback entry `(target, isIntersecting)` (lines 323-342).  Per the
IntersectionObserver contract, entries are delivered only for targets still
in the observed set; an intersecting entry starts the element's tween and
unobserves it (line 341), so it can never fire again. -/
def handleEntry (s : RevealState) (ev : ℕ × Bool) : RevealState :=
  if ev.1 ∈ s.observed ∧ ev.2 then
    { observed := s.observed.erase ev.1,
      started := fun e => if e = ev.1 then s.started e + 1 else s.started e }
  else s

/-- A whole sequence of intersection callback deliveries. -/
def runEntries (s : RevealState) (evs : List (ℕ × Bool)) : RevealState :=
  evs.foldl handleEntry s

/-- Initial observer state: every `.skill-bar` element observed (line 348),
no tween started. -/
def initReveal (bars : Finset ℕ) : RevealState :=
  { observed := bars, started := fun _ => 0 }

lemma runEntries_invariant (evs : List (ℕ × Bool)) (s : RevealState)
    (hinv : ∀ e, s.started e ≤ 1 ∧ (e ∈ s.observed → s.started e = 0)) :
    ∀ e, (runEntries s evs).started e ≤ 1 ∧
      (e ∈ (runEntries s evs).observed → (runEntries s evs).started e = 0) := by
  induction evs generalizing s with
  | nil => exact hinv
  | cons ev evs ih =>
    apply ih
    intro e
    unfold handleEntry
    split_ifs with hcond
    · dsimp only
      constructor
      · split_ifs with he
        · rw [(hinv e).2 (he ▸ hcond.1)]
        · exact (hinv e).1
      · intro hmem
        rw [Finset.mem_erase] at hmem
        rw [if_neg hmem.1]
        exact (hinv e).2 hmem.2
    · exact hinv e

/-- C5: each observed element is animated at most once.  However many
intersection entries fire, in whatever order, an element's tween is started
at most once, and an element still under observation has never been
animated. -/
theorem reveal_one_shot (bars : Finset ℕ) (evs : List (ℕ × Bool)) (el : ℕ) :
    (runEntries (initReveal bars) evs).started el ≤ 1 ∧
    (el ∈ (runEntries (initReveal bars) evs).observed →
      (runEntries (initReveal bars) evs).started el = 0) :=
  runEntries_invariant evs (initReveal bars)
    (fun _ => ⟨Nat.zero_le 1, fun _ => rfl⟩) el

/- ====== Browser environment, sizing and the start/resize flow ====== -/

/-- JavaScript `a || b` for a numeric `a` that may be absent: absent
(`undefined`/`NaN`, here `none`) and `0` are falsy and yield `b`. -/
def jsOr (a : Option ℚ) (b : ℚ) : ℚ :=
  match a with
  | none => b
  | some v => if v = 0 then b else v

/-- The browser inputs the script reads.  `rnd` is the `Math.random()` stream
(4 draws per particle, in source order); since `ℚ` has no trigonometric
functions, `dirCos`/`dirSin` stand for `t ↦ cos(t * 2π)` / `sin(t * 2π)`
applied to the raw random draw of line 103 (`Math.random() * Math.PI * 2`). -/
structure Env where
  innerWidth : ℚ
  innerHeight : ℚ
  devicePixelRatio : Option ℚ
  heroClientHeight : Option ℚ
  canvasClientHeight : Option ℚ
  rnd : Nat → ℚ
  dirCos : ℚ → ℚ
  dirSin : ℚ → ℚ

/-- `getTargetSize()` (script.js lines 51-59): width is the viewport width;
height falls back through hero height, canvas height and viewport height
(JS `||`, so a zero height also falls through), floored at 1. -/
def getTargetSize (env : Env) : ℚ × ℚ :=
  (env.innerWidth,
   max 1 (jsOr env.heroClientHeight (jsOr env.canvasClientHeight env.innerHeight)))

/-- `initParticles()` (script.js lines 98-113): a fresh array of
`computeParticleCount()` particles with random position, depth-scaled speed
and random direction, and no neighbor cache yet. -/
def initParticles (env : Env) (width height : ℚ) : List Particle :=
  (List.range (computeParticleCount env.innerWidth)).map fun k =>
    let depth := env.rnd (4 * k)
    let speedFactor := lerp 1 (2 / 5) depth
    let speed := BASE_SPEED * speedFactor
    { x := env.rnd (4 * k + 1) * width,
      y := env.rnd (4 * k + 2) * height,
      vx := env.dirCos (env.rnd (4 * k + 3)) * speed,
      vy := env.dirSin (env.rnd (4 * k + 3)) * speed,
      depth := depth,
      neighbors := [] }

/-- The module-level mutable state of the controller (script.js lines 30-38)
plus an explicit log of `cancelAnimationFrame` calls, so that frame
cancellation is observable in the model.  `rafId = 0` means no pending
frame, as in the source. -/
structure Controller where
  width : ℚ
  height : ℚ
  dpr : ℚ
  canvasWidth : ℤ
  canvasHeight : ℤ
  points : List Particle
  rafId : Nat
  cancelLog : List Nat

/-- `resizeCanvas()` (script.js lines 84-95): recompute target size and
capped device pixel ratio; if a canvas is present, resize its backing store
(`Math.floor`, floored at 1). -/
def resizeCanvas (env : Env) (canvasPresent : Bool) (s : Controller) : Controller :=
  let size := getTargetSize env
  let dprv := min (jsOr env.devicePixelRatio 1) DPR_CAP
  if canvasPresent then
    { s with
        width := size.1
        height := size.2
        dpr := dprv
        canvasWidth := max 1 ⌊size.1 * dprv⌋
        canvasHeight := max 1 ⌊size.2 * dprv⌋ }
  else
    { s with width := size.1, height := size.2, dpr := dprv }

/-- The `onResize` handler (script.js lines 298-303), fired on window resize
and orientation change: resize the canvas, reseed the particles from scratch
for the new area, recompute neighbors — and nothing else. -/
def onResize (env : Env) (s : Controller) : Controller :=
  let s1 := resizeCanvas env true s
  { s1 with points := computeNeighbors (initParticles env s1.width s1.height) }

lemma computeNeighbors_length (pts : List Particle) :
    (computeNeighbors pts).length = pts.length := by
  simp [computeNeighbors]

lemma initParticles_length (env : Env) (width height : ℚ) :
    (initParticles env width height).length = computeParticleCount env.innerWidth := by
  simp [initParticles]

/-- C6: the particle count is purely a function of viewport width — at most
the 768 px breakpoint gives the mobile constant 48, above it the desktop
constant 100 (so 375 px → 48 and 1920 px → 100) — and a resize reseeds the
particle array to exactly the count for the new width, freshly built from
the environment alone (no dependence on the previous particles). -/
theorem particleCount_and_reseed (env : Env) (s s' : Controller)
    (w w' : ℚ) (hw : w ≤ MOBILE_BREAKPOINT) (hw' : MOBILE_BREAKPOINT < w') :
    computeParticleCount w = PARTICLES_MOBILE ∧
    computeParticleCount w' = PARTICLES_DESKTOP ∧
    computeParticleCount 375 = 48 ∧
    computeParticleCount 1920 = 100 ∧
    (onResize env s).points.length = computeParticleCount env.innerWidth ∧
    (onResize env s).points = (onResize env s').points := by
  refine ⟨?_, ?_, ?_, ?_, ?_, ?_⟩
  · rw [computeParticleCount, if_pos hw]
  · rw [computeParticleCount, if_neg (not_le.mpr hw')]
  · norm_num [computeParticleCount, MOBILE_BREAKPOINT, PARTICLES_MOBILE]
  · norm_num [computeParticleCount, MOBILE_BREAKPOINT, PARTICLES_DESKTOP]
  · rw [onResize]
    dsimp only
    rw [computeNeighbors_length, initParticles_length]
  · rw [onResize, onResize]
    dsimp only
    rfl

/-- A fixed demo environment for concrete witnesses: a 375 px viewport. -/
def demoEnv : Env :=
  { innerWidth := 375, innerHeight := 667, devicePixelRatio := some 2,
    heroClientHeight := some 600, canvasClientHeight := none,
    rnd := fun _ => 1 / 2, dirCos := fun _ => 1, dirSin := fun _ => 0 }

/-- An idle controller with a pending frame handle 7. -/
def demoController : Controller :=
  { width := 375, height := 600, dpr := 2, canvasWidth := 750,
    canvasHeight := 1200, points := [], rafId := 7, cancelLog := [] }

/-- Witness for C6: viewport width 375 px. -/
theorem particleCount_and_reseed_witness :
    ((375:ℚ) ≤ MOBILE_BREAKPOINT) ∧ (MOBILE_BREAKPOINT < (1920:ℚ)) ∧
    (computeParticleCount 375 = PARTICLES_MOBILE ∧
     computeParticleCount 1920 = PARTICLES_DESKTOP ∧
     computeParticleCount 375 = 48 ∧
     computeParticleCount 1920 = 100 ∧
     (onResize demoEnv demoController).points.length
       = computeParticleCount demoEnv.innerWidth ∧
     (onResize demoEnv demoController).points
       = (onResize demoEnv demoController).points) :=
  ⟨by norm_num [MOBILE_BREAKPOINT], by norm_num [MOBILE_BREAKPOINT],
    particleCount_and_reseed demoEnv demoController demoController 375 1920
      (by norm_num [MOBILE_BREAKPOINT]) (by norm_num [MOBILE_BREAKPOINT])⟩

/-- Counterexample to C7 as stated: with a pending frame handle 7, the resize
handler leaves the handle pending and cancels nothing — `onResize` never
touches `rafId` and never calls `cancelAnimationFrame`. -/
theorem onResize_no_cancel_counterexample :
    (onResize demoEnv demoController).rafId = 7 ∧
    (onResize demoEnv demoController).cancelLog = [] := by
  constructor <;> rfl

/-- C7 amended: the resize/orientation-change handler only resizes the
canvas, reseeds the particles and recomputes neighbors; it neither cancels
nor restarts the pending animation frame (that cancellation-and-restart
happens only in `start()`, lines 308-310). -/
theorem onResize_keeps_pending_frame (env : Env) (s : Controller) :
    (onResize env s).rafId = s.rafId ∧
    (onResize env s).cancelLog = s.cancelLog ∧
    (onResize env s).points.length = computeParticleCount env.innerWidth := by
  refine ⟨rfl, rfl, ?_⟩
  rw [onResize]
  dsimp only
  rw [computeNeighbors_length, initParticles_length]

/- ====== start() and failure handling (script.js lines 254-313, 317-319) ====== -/

/-- The DOM facts `start()` inspects. -/
structure Dom where
  bgCanvasPresent : Bool
  hostPresent : Bool
  ctx2dAvailable : Bool
  tsTeardownThrows : Bool
  yearElPresent : Bool
  deriving DecidableEq, Repr

/-- `getOrCreateCanvas()` (lines 62-81): succeeds when `#bg-canvas` exists,
or when a host (`#tsparticles` or `.section--home`) exists to inject a fresh
canvas into; otherwise no canvas is obtained. -/
def getOrCreateCanvas (dom : Dom) : Bool :=
  dom.bgCanvasPresent || dom.hostPresent

/-- Observable outcome of `start()`. -/
structure StartResult where
  warnings : List String
  yearSet : Bool
  listenersRegistered : Bool
  loopStarted : Bool
  scene : Option Controller

/-- `start()` (lines 254-311).  The tsParticles teardown of lines 260-278 is
wrapped in `try { … } catch (_) {}` with an empty catch: its outcome (the
`Except` below) is discarded and control always continues, which is why the
result never depends on `tsTeardownThrows`.  A missing canvas or 2D context
logs a warning and returns before any listener registration or frame
request. -/
def start (dom : Dom) (env : Env) (prev : Controller) : StartResult :=
  let yearSet := dom.yearElPresent
  let _teardown : Except Unit Unit :=
    if dom.tsTeardownThrows then .error () else .ok ()
  if getOrCreateCanvas dom = false then
    { warnings := ["bg-canvas not found and no host to create it."],
      yearSet := yearSet, listenersRegistered := false,
      loopStarted := false, scene := none }
  else if dom.ctx2dAvailable = false then
    { warnings := ["2D context not available"],
      yearSet := yearSet, listenersRegistered := false,
      loopStarted := false, scene := none }
  else
    let s1 := resizeCanvas env true prev
    let s2 := { s1 with points := computeNeighbors (initParticles env s1.width s1.height) }
    let s3 := if s2.rafId ≠ 0 then { s2 with cancelLog := s2.rafId :: s2.cancelLog } else s2
    { warnings := [], yearSet := yearSet, listenersRegistered := true,
      loopStarted := true, scene := some { s3 with rafId := s3.rafId + 1 } }

/-- The skill-bar `DOMContentLoaded` handler (lines 317-319): with no
`.skill-bar` elements it returns before constructing an observer; otherwise
it observes every bar. -/
def skillBarInit (bars : List ℕ) : Option RevealState :=
  if bars.isEmpty then none else some (initReveal bars.toFinset)

/-- C8: all failure modes are non-fatal no-ops — no canvas and no host, or
no 2D context, produce only a warning with no listeners and no loop; a
throwing tsParticles teardown is swallowed (the result is identical either
way); and an empty reveal target set creates no observer. -/
theorem failures_are_nonfatal (env : Env) (prev : Controller)
    (dom1 : Dom) (hc1 : getOrCreateCanvas dom1 = false)
    (dom2 : Dom) (hc2 : getOrCreateCanvas dom2 = true)
    (hctx2 : dom2.ctx2dAvailable = false)
    (dom3 : Dom) (bars : List ℕ) (hbars : bars = []) :
    (start dom1 env prev).warnings = ["bg-canvas not found and no host to create it."] ∧
    (start dom1 env prev).listenersRegistered = false ∧
    (start dom1 env prev).loopStarted = false ∧
    (start dom1 env prev).scene = none ∧
    (start dom2 env prev).warnings = ["2D context not available"] ∧
    (start dom2 env prev).listenersRegistered = false ∧
    (start dom2 env prev).loopStarted = false ∧
    (start dom2 env prev).scene = none ∧
    start { dom3 with tsTeardownThrows := true } env prev
      = start { dom3 with tsTeardownThrows := false } env prev ∧
    skillBarInit bars = none := by
  subst hbars
  refine ⟨?_, ?_, ?_, ?_, ?_, ?_, ?_, ?_, rfl, rfl⟩ <;>
    simp [start, hc1, hc2, hctx2]

/-- Witness for C8: an empty document (no canvas, no host), a document whose
canvas yields no 2D context, and an empty skill-bar list. -/
theorem failures_are_nonfatal_witness :
    getOrCreateCanvas ⟨false, false, true, false, true⟩ = false ∧
    getOrCreateCanvas ⟨true, true, false, true, true⟩ = true ∧
    Dom.ctx2dAvailable ⟨true, true, false, true, true⟩ = false ∧
    ([] : List ℕ) = [] ∧
    ((start ⟨false, false, true, false, true⟩ demoEnv demoController).loopStarted = false ∧
     (start ⟨true, true, false, true, true⟩ demoEnv demoController).loopStarted = false ∧
     skillBarInit [] = none) := by
  have h := failures_are_nonfatal demoEnv demoController
    ⟨false, false, true, false, true⟩ (by decide)
    ⟨true, true, false, true, true⟩ (by decide) (by decide)
    ⟨true, true, true, true, true⟩ [] rfl
  exact ⟨by decide, by decide, by decide, rfl, h.2.2.1, h.2.2.2.2.2.2.1, h.2.2.2.2.2.2.2.2.2⟩

end Portfolio
